import Mathlib

/-!
Verification of the test-harness scripts of the repository
(`test_adk.py`, `adk_demo/test_assistants.py`, `adk_demo/tests/test_agent.py`,
`adk_demo/tests/test_sessions.py`, `adk_demo/tests/test_thread_isolation.py`,
`adk_demo/tests/google_adk/test_complex_agents.py`,
`examples/adk_image_example.py`) against the natural-language specification.

The scripts are thin HTTP clients: every function under study builds a JSON
payload, performs one blocking request, and computes a pass/fail value from the
`(status, parsed_body)` pair.  The shallow embedding below models:

  * JSON values (`JsonVal`) as produced by Python's `json.loads`;
  * the outcome of one `urllib.request.urlopen` call (`HttpOutcome`):
    the call either returns a response (2xx/3xx), raises
    `urllib.error.HTTPError` (carrying a status and a body), or raises some
    other exception (timeout, connection refused, DNS failure, ...);
  * Python dynamic operations used by the scripts (`dict.get`, indexing,
    truthiness, slicing) with explicit error propagation (`Except String _`
  models an uncaught Python exception carrying its message);
  * `json.loads` itself is standard-library code, not repository code, so it
    enters the model as an explicit parameter `parse : String → Except String
    JsonVal` (`Except.error` models a raised `json.JSONDecodeError`); the
    general theorems quantify over `parse`, and closed witness theorems
    instantiate it with `jsonLoadsOn`, a concrete function that agrees with
    `json.loads` on every string it is applied to in those theorems.
-/

/-- JSON values, the results of Python's `json.loads` on the bodies the
scripts receive. -/
inductive JsonVal where
  | null
  | bool (b : Bool)
  | num (n : Int)
  | str (s : String)
  | arr (elems : List JsonVal)
  | obj (fields : List (String × JsonVal))

/-- Python truthiness (`if x:`) on JSON-shaped values: `None`, `False`, `0`,
`""`, `[]` and `{}` are falsy, everything else truthy. -/
def pyTruthy : JsonVal → Bool
  | .null => false
  | .bool b => b
  | .num n => n != 0
  | .str s => s ≠ ""
  | .arr es => !es.isEmpty
  | .obj fs => !fs.isEmpty

/-- First binding of `key` in an association list (Python dict lookup order on
the modelled literal dicts). -/
def lookupField (key : String) : List (String × JsonVal) → Option JsonVal
  | [] => none
  | (k, v) :: rest => if k = key then some v else lookupField key rest

/-- Python `x.get(key, default)`: defined on dicts, raises `AttributeError`
on any other value. -/
def pyGetD (v : JsonVal) (key : String) (dflt : JsonVal) : Except String JsonVal :=
  match v with
  | .obj fs => .ok ((lookupField key fs).getD dflt)
  | _ => .error ("AttributeError: get " ++ key)

/-- Python `x.get(key)` (default `None`). -/
def pyGet1 (v : JsonVal) (key : String) : Except String JsonVal :=
  pyGetD v key .null

/-- Python `x[0]`: returns the head of a list or the first character of a
string; raises `IndexError` when empty and `TypeError`/`KeyError` on values
that do not support position-0 indexing (numbers, booleans, `None`,
string-keyed dicts). -/
def pyIndex0 : JsonVal → Except String JsonVal
  | .arr (h :: _) => .ok h
  | .arr [] => .error "IndexError: list index out of range"
  | .str s =>
      match s.toList with
      | c :: _ => .ok (.str (String.mk [c]))
      | [] => .error "IndexError: string index out of range"
  | .obj _ => .error "KeyError: 0"
  | _ => .error "TypeError: not subscriptable"

/-- Python slicing `x[:n]` as used for printing: works on strings and lists,
raises `TypeError` on other values. -/
def pySlice : JsonVal → Except String JsonVal
  | .str s => .ok (.str s)
  | .arr es => .ok (.arr es)
  | _ => .error "TypeError: not subscriptable"

/-- The dict `{"error": str(e)}` the harness returns on a captured
exception. -/
def errorObj (m : String) : JsonVal :=
  .obj [("error", .str m)]

/-- Outcome of one `urllib.request.urlopen(req, timeout=...)` call together
with reading and UTF-8-decoding the body: the call returns a response
(`success`, a 2xx/3xx status and the decoded body text), raises
`urllib.error.HTTPError` (`httpError`, a non-2xx status and the decoded error
body), or raises some other exception such as `socket.timeout`,
`ConnectionRefusedError` or a DNS failure (`transportError`, carrying
`str(e)`). -/
inductive HttpOutcome where
  | success (status : Nat) (body : String)
  | httpError (code : Nat) (body : String)
  | transportError (msg : String)

/-- `make_request` from `test_adk.py` (lines 13-29).  The same function
appears verbatim in `adk_demo/test_assistants.py` (lines 11-25),
`adk_demo/tests/test_sessions.py` (lines 14-29) and — with the timeout as a
parameter, which does not affect this model — in
`adk_demo/tests/google_adk/test_complex_agents.py` (lines 17-32).

```
try:
    with urllib.request.urlopen(req, timeout=120) as resp:
        body = resp.read().decode('utf-8')
        return resp.status, json.loads(body) if body else {}
except urllib.error.HTTPError as e:
    body = e.read().decode('utf-8')
    return e.code, json.loads(body) if body else {}
except Exception as e:
    return 0, {"error": str(e)}
```

A `json.JSONDecodeError` raised in the `try` block is caught by the
`except Exception` clause (yielding `(0, {"error": str(e)})`), but one raised
inside the `except HTTPError` handler is not caught by the later clause of the
same `try` statement and propagates to the caller (`Except.error`). -/
def make_request (parse : String → Except String JsonVal) :
    HttpOutcome → Except String (Nat × JsonVal)
  | .success s body =>
      if body = "" then .ok (s, .obj [])
      else
        match parse body with
        | .ok v => .ok (s, v)
        | .error m => .ok (0, errorObj m)
  | .httpError c body =>
      if body = "" then .ok (c, .obj [])
      else
        match parse body with
        | .ok v => .ok (c, v)
        | .error m => .error m
  | .transportError m => .ok (0, errorObj m)

/-- `req` from `adk_demo/tests/test_thread_isolation.py` (lines 9-15): it
performs `urlopen` and `json.loads` with no `try`/`except` at all, returning
only the decoded body; every HTTP error, transport failure or decode failure
propagates as an uncaught exception.

```
r = urllib.request.Request(url, data=req_data, headers=headers, method=method)
with urllib.request.urlopen(r, timeout=120) as resp:
    return json.loads(resp.read().decode('utf-8'))
``` -/
def req (parse : String → Except String JsonVal) :
    HttpOutcome → Except String JsonVal
  | .success _ body => parse body
  | .httpError c _ => .error ("HTTP Error " ++ toString c)
  | .transportError m => .error m

/-- Concrete stand-in for Python's `json.loads`, used only to instantiate the
`parse` parameter in the closed (witness / counterexample) theorems below.  It
decodes the empty JSON object, the empty JSON array and non-negative integer
literals, and errors on every other string; it agrees with `json.loads` on
every string it is applied to in those theorems (in particular `json.loads`
raises on `"not json"` and on `"Internal Server Error"`). -/
def jsonLoadsOn (s : String) : Except String JsonVal :=
  if s = "\x7b\x7d" then .ok (.obj [])
  else if s = "[]" then .ok (.arr [])
  else if s ≠ "" && s.toList.all Char.isDigit then
    .ok (.num (s.toList.foldl (fun acc c => acc * 10 + (Int.ofNat c.toNat - 48)) 0))
  else .error "Expecting value"

/-- `req_data = json.dumps(data).encode('utf-8') if data else None` — the body
computation shared by every `make_request` variant and by `req` (e.g.
`test_adk.py` line 18).  `dumps` abstracts Python's `json.dumps`; the
conditional is Python truthiness of the `data` argument (default `None`).
`none` models sending no request body at all. -/
def reqData (dumps : JsonVal → String) : Option JsonVal → Option String
  | none => none
  | some d => if pyTruthy d then some (dumps d) else none

/-- C2 counterexample.  The claim says every request function in the
repository turns a transport-level failure into a returned `(0, error)` pair
instead of raising.  `req` in `adk_demo/tests/test_thread_isolation.py` has no
`try`/`except`: on a connection-refused failure it propagates the exception
(modelled by `Except.error`) and the script crashes, returning no pair at
all. -/
theorem C2_counterexample :
    req jsonLoadsOn (.transportError "Connection refused") =
      Except.error "Connection refused" := rfl

/-- C2 amended: each of the four `make_request` variants returns
`(0, {"error": str(e)})` on a transport-level failure, letting those scripts
continue; but `req` in the thread-isolation script performs no exception
handling and propagates the failure (as it also propagates HTTP errors). -/
theorem C2_amended (parse : String → Except String JsonVal) (m : String) (c : Nat) :
    make_request parse (.transportError m) = .ok (0, errorObj m) ∧
    req parse (.transportError m) = .error m ∧
    req parse (.httpError c "") = .error ("HTTP Error " ++ toString c) := by
  exact ⟨rfl, rfl, rfl⟩

/-- The spec-side reading of C3: the harness result surfaces the raw response
text to the caller (as the returned body, with some status). -/
def surfacesRawText (r : Except String (Nat × JsonVal)) (raw : String) : Prop :=
  ∃ s, r = Except.ok (s, JsonVal.str raw)

/-- C3 counterexample.  On a 200 response with the non-JSON body
`"not json"`, `make_request` does not surface the raw text: it returns
`(0, {"error": ...})`, the generic error value the claim rules out.  And on a
500 `HTTPError` whose body `"Internal Server Error"` is not JSON, the
`json.loads` call inside the `except HTTPError` handler raises an uncaught
exception (the later `except Exception` clause of the same `try` does not
apply to it). -/
theorem C3_counterexample :
    ¬ surfacesRawText (make_request jsonLoadsOn (.success 200 "not json")) "not json" ∧
    make_request jsonLoadsOn (.success 200 "not json") =
      .ok (0, errorObj "Expecting value") ∧
    make_request jsonLoadsOn (.httpError 500 "Internal Server Error") =
      .error "Expecting value" := by
  refine ⟨?_, rfl, rfl⟩
  rintro ⟨s, h⟩
  rw [show make_request jsonLoadsOn (.success 200 "not json") =
        .ok (0, errorObj "Expecting value") from rfl] at h
  injection h with h1
  injection h1 with h2 h3
  exact JsonVal.noConfusion h3

/-- C3 amended: on a completed response whose non-empty body is not valid
JSON, `make_request` behaves asymmetrically — if the response came from the
success path (`urlopen` returned), the decode error is caught by
`except Exception` and the call returns `(0, {"error": str(e)})` rather than
the raw text; if it came from the `HTTPError` path, the decode error raised
inside the handler propagates uncaught. -/
theorem C3_amended (parse : String → Except String JsonVal) (s : Nat) (body m : String)
    (hb : body ≠ "") (hp : parse body = .error m) :
    make_request parse (.success s body) = .ok (0, errorObj m) ∧
    make_request parse (.httpError s body) = .error m := by
  constructor <;> simp [make_request, hb, hp]

/-- Witness for C3 amended at the concrete non-JSON body `"not json"`. -/
theorem C3_amended_witness :
    make_request jsonLoadsOn (.success 200 "not json") =
      .ok (0, errorObj "Expecting value") ∧
    make_request jsonLoadsOn (.httpError 200 "not json") =
      .error "Expecting value" :=
  C3_amended jsonLoadsOn 200 "not json" "Expecting value" (by decide) rfl

/-- C8: for every completed HTTP call — whether `urlopen` returned (2xx/3xx)
or raised `HTTPError` (non-2xx) — `make_request` returns the pair
`(status_code, parsed_body)`: the JSON-decoded body when the body is
non-empty (and decodable), and the empty mapping `{}` when the body is
empty.  This holds verbatim for all four `make_request` variants, which share
this code. -/
theorem C8_completed_call_pair (parse : String → Except String JsonVal)
    (s : Nat) (body : String) (v : JsonVal)
    (hb : body ≠ "") (hp : parse body = .ok v) :
    (make_request parse (.success s body) = .ok (s, v) ∧
     make_request parse (.httpError s body) = .ok (s, v)) ∧
    (make_request parse (.success s "") = .ok (s, .obj []) ∧
     make_request parse (.httpError s "") = .ok (s, .obj [])) := by
  refine ⟨⟨?_, ?_⟩, ⟨?_, ?_⟩⟩ <;> simp [make_request, hb, hp]

/-- Witness for C8 at the decodable body `"[]"` and status 200. -/
theorem C8_completed_call_pair_witness :
    (make_request jsonLoadsOn (.success 200 "[]") = .ok (200, .arr []) ∧
     make_request jsonLoadsOn (.httpError 200 "[]") = .ok (200, .arr [])) ∧
    (make_request jsonLoadsOn (.success 200 "") = .ok (200, .obj []) ∧
     make_request jsonLoadsOn (.httpError 200 "") = .ok (200, .obj [])) :=
  C8_completed_call_pair jsonLoadsOn 200 "[]" (.arr []) (by decide) rfl

/-- C9: a `data` argument equal to the empty dict `{}` is falsy in Python, so
`req_data = json.dumps(data).encode('utf-8') if data else None` evaluates to
`None` — no request body is sent, exactly as when `data` is omitted
(`data=None`).  In particular `make_request("/v1/threads", "POST", {})` in
`test_thread_lifecycle` issues a bodyless POST. -/
theorem C9_empty_dict_bodyless (dumps : JsonVal → String) :
    reqData dumps (some (.obj [])) = none ∧
    reqData dumps none = none ∧
    reqData dumps (some (.obj [])) = reqData dumps none :=
  ⟨rfl, rfl, rfl⟩

/-- `int(''.join(filter(str.isdigit, score_response[:5])))` — the digit string
of the first five characters, read as a base-10 integer
(`test_complex_agents.py` line 377). -/
def digitsVal (ds : List Char) : Nat :=
  ds.foldl (fun acc c => acc * 10 + (c.toNat - 48)) 0

/-- Score extraction in `test_loop_agent`
(`test_complex_agents.py` lines 375-380):

```
try:
    score = int(''.join(filter(str.isdigit, score_response[:5])))
    score = min(max(score, 1), 10)  # Clamp to 1-10
except:
    score = 5  # Default if parsing fails
```

`int` raises exactly when the joined digit string is empty (a non-empty
all-digit string always parses), so the `except` branch fires exactly when the
first five characters contain no digit. -/
def extractScore (resp : String) : Nat :=
  if ((resp.toList.take 5).filter Char.isDigit).isEmpty then 5
  else min (max (digitsVal ((resp.toList.take 5).filter Char.isDigit)) 1) 10

/-- C10: for every evaluator response string the extracted quality score lies
in the closed range [1, 10] — parsed digits are clamped to that range — and a
response whose first five characters contain no digit (so no score can be
parsed) yields the default score 5. -/
theorem C10_score_in_range (resp : String) :
    (1 ≤ extractScore resp ∧ extractScore resp ≤ 10) ∧
    (((resp.toList.take 5).filter Char.isDigit).isEmpty = true →
      extractScore resp = 5) := by
  unfold extractScore
  by_cases h : ((resp.toList.take 5).filter Char.isDigit).isEmpty = true
  · rw [if_pos h]
    exact ⟨⟨by norm_num, by norm_num⟩, fun _ => rfl⟩
  · rw [if_neg h]
    exact ⟨⟨le_min (le_max_right _ _) (by norm_num), min_le_right _ _⟩,
      fun hc => absurd hc h⟩

/-- Witness for C10 at a response with no digit among its first five
characters. -/
theorem C10_score_in_range_witness :
    (1 ≤ extractScore "abc" ∧ extractScore "abc" ≤ 10) ∧ extractScore "abc" = 5 :=
  ⟨(C10_score_in_range "abc").1, (C10_score_in_range "abc").2 (by decide)⟩

/-- `startsList n h`: `n` is a leading block of `h` (helper for Python's
substring operator `in`). -/
def startsList : List Char → List Char → Bool
  | [], _ => true
  | _ :: _, [] => false
  | a :: as, b :: bs => a == b && startsList as bs

/-- `substrB n h`: `n` occurs contiguously in `h` — Python's `needle in hay`
on strings. -/
def substrB (needle : List Char) : List Char → Bool
  | [] => needle.isEmpty
  | b :: bs => startsList needle (b :: bs) || substrB needle bs

/-- Python's `needle in hay` on strings. -/
def pyIn (needle hay : String) : Bool :=
  substrB needle.toList hay.toList

/-- Python's `str.lower()` (the scripts only apply it to ASCII model
output). -/
def pyLower (s : String) : String :=
  String.mk (s.toList.map Char.toLower)

/-- Spec-side statement that the text `hay` contains the fact `fact` as a
contiguous substring. -/
def containsFact (hay fact : String) : Prop :=
  ∃ pre post : List Char, hay.toList = pre ++ (fact.toList ++ post)

theorem startsList_iff : ∀ (n h : List Char),
    startsList n h = true ↔ ∃ rest, h = n ++ rest
  | [], h => by simp [startsList]
  | a :: as, [] => by simp [startsList]
  | a :: as, b :: bs => by
    simp only [startsList, Bool.and_eq_true, beq_iff_eq, startsList_iff as bs,
      List.cons_append, List.cons.injEq]
    constructor
    · rintro ⟨hab, rest, hr⟩
      exact ⟨rest, hab.symm, hr⟩
    · rintro ⟨rest, hba, hr⟩
      exact ⟨hba.symm, rest, hr⟩

theorem substrB_iff : ∀ (n h : List Char),
    substrB n h = true ↔ ∃ pre post, h = pre ++ (n ++ post)
  | n, [] => by
    simp only [substrB, List.isEmpty_iff]
    constructor
    · rintro rfl
      exact ⟨[], [], rfl⟩
    · rintro ⟨pre, post, hp⟩
      rcases List.append_eq_nil.mp hp.symm with ⟨h1, h2⟩
      exact (List.append_eq_nil.mp h2).1
  | n, b :: bs => by
    simp only [substrB, Bool.or_eq_true, startsList_iff, substrB_iff n bs]
    constructor
    · rintro (⟨rest, hr⟩ | ⟨pre, post, hr⟩)
      · exact ⟨[], rest, by simpa using hr⟩
      · exact ⟨b :: pre, post, by simp [hr]⟩
    · rintro ⟨pre, post, hp⟩
      cases pre with
      | nil => exact Or.inl ⟨post, by simpa using hp⟩
      | cons p ps =>
        rw [List.cons_append] at hp
        injection hp with h1 h2
        exact Or.inr ⟨ps, post, h2⟩

/-- Python's `needle in hay` agrees with the spec-side containment
predicate. -/
theorem pyIn_iff (needle hay : String) :
    pyIn needle hay = true ↔ containsFact hay needle :=
  substrB_iff needle.toList hay.toList

/-- Pass condition of `test_session_isolation`
(`adk_demo/tests/test_sessions.py` lines 96-102):

```
session_a_ok = "30" in a2 or "60" in a2
session_b_ok = "blue" in b1.lower() or "green" in b2.lower()
return session_a_ok and session_b_ok
``` -/
def sessionIsolationCheck (a2 b1 b2 : String) : Bool :=
  (pyIn "30" a2 || pyIn "60" a2) &&
  (pyIn "blue" (pyLower b1) || pyIn "green" (pyLower b2))

/-- Verification condition of the thread-isolation script
(`adk_demo/tests/test_thread_isolation.py` lines 48-57):

```
a_ok = "300" in a2_text or "three hundred" in a2_text
b_ok = "green" in b2_text
```
where `a2_text`/`b2_text` are the lowercased final messages of threads A
and B. -/
def threadIsolationCheck (a2 b2 : String) : Bool :=
  (pyIn "300" (pyLower a2) || pyIn "three hundred" (pyLower a2)) &&
  pyIn "green" (pyLower b2)

/-- C1 counterexample.  The claim says the isolation checks pass only when a
later turn of session/thread B contains no fact introduced only in session A.
Concretely, session A introduced the value 30 (10 + 20) and thread A the value
300; with B's later turn reading "green and 30" (resp. "grass is green and
300") — a response that leaks A's fact into B — both pass conditions still
evaluate to `True`. -/
theorem C1_counterexample :
    (sessionIsolationCheck "60" "blue" "green and 30" = true ∧
     pyIn "30" "green and 30" = true) ∧
    (threadIsolationCheck "the doubled result is 300" "grass is green and 300" = true ∧
     pyIn "300" (pyLower "grass is green and 300") = true) := by
  decide

/-- C1 amended: the pass conditions of `test_session_isolation` and of the
thread-isolation script are positive context-retention checks — they hold
exactly when each conversation's later turns contain that conversation's own
facts (A2 contains "30" or "60", B1 contains "blue" or B2 contains "green";
thread A2 contains "300" or "three hundred", thread B2 contains "green") —
and assert nothing about the absence in session B of facts introduced in
session A. -/
theorem C1_amended (a2 b1 b2 ta2 tb2 : String) :
    (sessionIsolationCheck a2 b1 b2 = true ↔
      ((containsFact a2 "30" ∨ containsFact a2 "60") ∧
       (containsFact (pyLower b1) "blue" ∨ containsFact (pyLower b2) "green"))) ∧
    (threadIsolationCheck ta2 tb2 = true ↔
      ((containsFact (pyLower ta2) "300" ∨ containsFact (pyLower ta2) "three hundred") ∧
       containsFact (pyLower tb2) "green")) := by
  constructor <;>
    simp [sessionIsolationCheck, threadIsolationCheck, Bool.and_eq_true,
      Bool.or_eq_true, pyIn_iff]

/-- `isinstance(x, list)`. -/
def isList : JsonVal → Bool
  | .arr _ => true
  | _ => false

/-- `isinstance(x, list) and len(x) > 0`. -/
def isNonemptyList : JsonVal → Bool
  | .arr (_ :: _) => true
  | _ => false

/-- The field extraction `test_run` performs for printing on the success path
(`test_adk.py` lines 58-65): `events[0]`, `event.get('id')`,
`event.get('invocation_id')`, `event.get('author')`,
`content = event.get('content', {})`, `parts = content.get('parts', [])`, and
when `parts` is truthy `parts[0].get('text', '')[:200]`.  Any dynamic error
here is an uncaught exception of `test_run` (the function has no
`try`/`except`). -/
def runExtract (events : JsonVal) : Except String Unit := do
  let event ← pyIndex0 events
  let _ ← pyGet1 event "id"
  let _ ← pyGet1 event "invocation_id"
  let _ ← pyGet1 event "author"
  let content ← pyGetD event "content" (.obj [])
  let parts ← pyGetD content "parts" (.arr [])
  if pyTruthy parts then do
    let p0 ← pyIndex0 parts
    let t ← pyGetD p0 "text" (.str "")
    let _ ← pySlice t
    return ()
  else
    return ()

/-- `test_run` from `test_adk.py` (lines 43-69), as a function of the
`(status, events)` pair returned by `make_request("/run", "POST", payload)`:

```
if status == 200 and isinstance(events, list) and len(events) > 0:
    ...printing extraction...
    return True
else:
    print(f"Error: {events}")
    return False
``` -/
def test_run (status : Nat) (events : JsonVal) : Except String Bool :=
  if status = 200 ∧ isNonemptyList events = true then
    match runExtract events with
    | .error e => .error e
    | .ok _ => .ok true
  else
    .ok false

/-- First element's `content.parts[0].text`, read off the documented event
shape — used only to state the spec's claim-side condition. -/
def firstPartText : JsonVal → Option String
  | .obj fs =>
    match lookupField "content" fs with
    | some (.obj cs) =>
      match lookupField "parts" cs with
      | some (.arr (.obj ps :: _)) =>
        match lookupField "text" ps with
        | some (.str t) => some t
        | _ => none
      | _ => none
    | _ => none
  | _ => none

/-- The claim-side pass condition of C4, following the spec's words: HTTP 200
and a one-element event list whose first element's `content.parts[0].text`
contains "4". -/
def specRunCond (status : Nat) (events : JsonVal) : Bool :=
  status == 200 &&
  (match events with
   | .arr [ev] =>
     match firstPartText ev with
     | some t => pyIn "4" t
     | none => false
   | _ => false)

/-- A well-formed `/run` event whose text is "7" (not containing "4"). -/
def ev7 : JsonVal :=
  .obj [("content", .obj [("parts", .arr [.obj [("text", .str "7")]])])]

/-- C4 counterexample.  On a 200 response carrying a two-element event list
whose first text is "7", `test_run` returns `True`, although the claim-side
condition (one-element list, text containing "4") is false: the function
checks only `status == 200`, `isinstance(events, list)` and
`len(events) > 0`. -/
theorem C4_counterexample :
    test_run 200 (.arr [ev7, ev7]) = .ok true ∧
    specRunCond 200 (.arr [ev7, ev7]) = false :=
  ⟨rfl, rfl⟩

/-- C4 amended: `test_run` returns `True` exactly when the status is 200 and
the parsed body is a non-empty list (of any length, with no constraint on the
response text); it returns `False` otherwise, and raises if the printing
extraction hits a dynamic error. -/
theorem C4_amended (status : Nat) (events : JsonVal) (b : Bool)
    (h : test_run status events = .ok b) :
    b = true ↔ (status = 200 ∧ isNonemptyList events = true) := by
  unfold test_run at h
  by_cases hg : status = 200 ∧ isNonemptyList events = true
  · rw [if_pos hg] at h
    cases hr : runExtract events with
    | error e => rw [hr] at h; cases h
    | ok u =>
      rw [hr] at h
      injection h with hb
      simp [← hb, hg]
  · rw [if_neg hg] at h
    injection h with hb
    simp [← hb, hg]

/-- Witness for C4 amended at the concrete two-element event list. -/
theorem C4_amended_witness :
    true = true ↔ (200 = 200 ∧ isNonemptyList (.arr [ev7, ev7]) = true) :=
  C4_amended 200 (.arr [ev7, ev7]) true rfl

/-- `startsList` lifted to strings: Python's `s.startswith(p)`. -/
def pyStartsWith (p s : String) : Bool :=
  startsList p.toList s.toList

/-- The per-turn extraction of `run_conversation`
(`adk_demo/tests/test_agent.py` lines 50-57), applied when `events` is truthy
and a list: `events[0].get('content', {})`, `.get('parts', [])`, and when
`parts` is truthy the turn appends `parts[0].get('text', '')` to `responses`
(after printing its `[:200]` slice).  Returns `some v` when a value is
appended, `none` when nothing is appended (falsy `parts`); a dynamic error is
an exception (caught by the surrounding `except`). -/
def extractTurn (events : JsonVal) : Except String (Option JsonVal) := do
  let event ← pyIndex0 events
  let content ← pyGetD event "content" (.obj [])
  let parts ← pyGetD content "parts" (.arr [])
  if pyTruthy parts then do
    let t ← pyGetD (← pyIndex0 parts) "text" (.str "")
    let _ ← pySlice t
    return (some t)
  else
    return none

/-- One turn of `run_conversation` (`adk_demo/tests/test_agent.py` lines
41-60): the request, `json.loads`, and the extraction all sit inside one
`try`; any exception `e` (transport failure, `HTTPError`, decode failure, or a
dynamic extraction error) is caught by `except Exception` and appends
`f"ERROR: {e}"` to `responses`; a response whose `events` is falsy or not a
list, or whose `parts` is falsy, appends nothing.  The result is the value
this turn appends to `responses` (`none` = nothing appended). -/
def turnResponse (parse : String → Except String JsonVal) :
    HttpOutcome → Option JsonVal
  | .transportError m => some (.str ("ERROR: " ++ m))
  | .httpError c _ => some (.str ("ERROR: HTTP Error " ++ toString c))
  | .success _ body =>
    match parse body with
    | .error m => some (.str ("ERROR: " ++ m))
    | .ok events =>
      if pyTruthy events && isList events then
        match extractTurn events with
        | .ok r => r
        | .error m => some (.str ("ERROR: " ++ m))
      else none

/-- Pass condition of `test_multi_turn` (`adk_demo/tests/test_agent.py` lines
82-89): `all_success = len(responses) == len(messages)`, with one request
outcome per message sent. -/
def multiTurnPass (parse : String → Except String JsonVal)
    (outcomes : List HttpOutcome) : Bool :=
  (outcomes.filterMap (turnResponse parse)).length == outcomes.length

theorem length_filterMap_eq_iff {α β} (f : α → Option β) :
    ∀ (l : List α),
      ((l.filterMap f).length = l.length) ↔ ∀ a ∈ l, (f a).isSome = true
  | [] => by simp
  | a :: l => by
    cases hfa : f a with
    | none =>
      have hle := List.length_filterMap_le f l
      simp only [List.filterMap_cons, hfa, List.length_cons]
      constructor
      · intro h
        omega
      · intro h
        exact absurd (h a (List.mem_cons_self a l)) (by simp [hfa])
    | some b =>
      simp only [List.filterMap_cons, hfa, List.length_cons,
        Nat.add_right_cancel_iff, length_filterMap_eq_iff f l]
      constructor
      · intro h x hx
        rcases List.mem_cons.mp hx with rfl | hx
        · simp [hfa]
        · exact h x hx
      · intro h x hx
        exact h x (List.mem_cons_of_mem a hx)

/-- C6 counterexample.  The claim says `test_multi_turn` passes only when each
of the K responses is non-error.  With K = 1 and the single request failing at
transport level, the turn appends `"ERROR: timed out"`; the pass condition
`len(responses) == len(messages)` still holds, so the test passes although the
one response is an error marker. -/
theorem C6_counterexample :
    multiTurnPass jsonLoadsOn [.transportError "timed out"] = true ∧
    turnResponse jsonLoadsOn (.transportError "timed out") =
      some (.str "ERROR: timed out") ∧
    pyStartsWith "ERROR: " "ERROR: timed out" = true :=
  ⟨rfl, rfl, rfl⟩

/-- C6 amended: `test_multi_turn` passes exactly when every turn appended a
response entry — a successful extraction with truthy `parts`, or any exception
(which appends an `"ERROR: ..."` string that counts like a normal response).
Turns whose parsed events are falsy, not a list, or whose `parts` are falsy
are the only ones that make it fail; error responses do not. -/
theorem C6_amended (parse : String → Except String JsonVal)
    (outcomes : List HttpOutcome) :
    multiTurnPass parse outcomes = true ↔
      ∀ o ∈ outcomes, (turnResponse parse o).isSome = true := by
  unfold multiTurnPass
  rw [beq_iff_eq]
  exact length_filterMap_eq_iff (turnResponse parse) outcomes

/-- Witness for C6 amended: instantiated at a one-element outcome list whose
turn is a transport failure. -/
theorem C6_amended_witness :
    (turnResponse jsonLoadsOn (.transportError "refused")).isSome = true :=
  (C6_amended jsonLoadsOn [.transportError "refused"]).mp rfl
    (.transportError "refused") (List.mem_singleton.mpr rfl)

/-- The raw DELETE of `test_sessions` (`test_adk.py` lines 92-100):

```
try:
    with urllib.request.urlopen(req) as resp:
        print(f"Delete: {resp.status}")
        return True
except urllib.error.HTTPError as e:
    print(f"Delete: {e.code}")
    return e.code == 204
```

A successful open returns `True` whatever the status; an `HTTPError` returns
`e.code == 204`; any other exception propagates (only `HTTPError` is
caught). -/
def deleteCall : HttpOutcome → Except String Bool
  | .success _ _ => .ok true
  | .httpError c _ => .ok (c == 204)
  | .transportError m => .error m

/-- `test_sessions` from `test_adk.py` (lines 71-100), as a function of the
outcomes of its four HTTP calls (create, list, get, delete).  It returns
`False` when the create status is not 201; the list and get calls are
performed for printing only, their statuses ignored; otherwise its result is
`deleteCall`'s.  `session.get('id', 'N/A')` is evaluated (for the print on
line 76) before the status check, and `session.get('id')` after it. -/
def test_sessions (parse : String → Except String JsonVal)
    (createOut listOut getOut deleteOut : HttpOutcome) : Except String Bool :=
  match make_request parse createOut with
  | .error e => .error e
  | .ok (status, session) =>
    match pyGetD session "id" (.str "N/A") with
    | .error e => .error e
    | .ok _ =>
      if status ≠ 201 then .ok false
      else
        match pyGet1 session "id" with
        | .error e => .error e
        | .ok _ =>
          match make_request parse listOut with
          | .error e => .error e
          | .ok _ =>
            match make_request parse getOut with
            | .error e => .error e
            | .ok _ => deleteCall deleteOut

/-- One iteration of the create loop in `test_session_api`
(`adk_demo/tests/test_sessions.py` lines 154-158):

```
status, session = make_request("/apps/test-app/users/api-test/sessions", "POST")
if status == 201:
    created_ids.append(session.get('id'))
    print(f"Created session {i+1}: {session.get('id', 'N/A')[:30]}...")
``` -/
def createStep (parse : String → Except String JsonVal) (o : HttpOutcome)
    (acc : List JsonVal) : Except String (List JsonVal) :=
  match make_request parse o with
  | .error e => .error e
  | .ok (status, session) =>
    if status = 201 then
      match pyGet1 session "id" with
      | .error e => .error e
      | .ok idv =>
        match pyGetD session "id" (.str "N/A") with
        | .error e => .error e
        | .ok idp =>
          match pySlice idp with
          | .error e => .error e
          | .ok _ => .ok (acc ++ [idv])
    else .ok acc

/-- `test_session_api` from `adk_demo/tests/test_sessions.py` (lines 142-179),
as a function of the outcomes of its HTTP calls: list-before, three creates,
list-after, three deletes, list-final.  The three list responses are used only
for printing their lengths; the deletes sit inside `try: ... except: pass`, so
their outcomes (`_d1 _d2 _d3`) have no observable effect; the return value is
`len(created_ids) == 3`. -/
def test_session_api (parse : String → Except String JsonVal)
    (listBefore c1 c2 c3 listAfter _d1 _d2 _d3 listFinal : HttpOutcome) :
    Except String Bool :=
  match make_request parse listBefore with
  | .error e => .error e
  | .ok _ =>
    match createStep parse c1 [] with
    | .error e => .error e
    | .ok ids1 =>
      match createStep parse c2 ids1 with
      | .error e => .error e
      | .ok ids2 =>
        match createStep parse c3 ids2 with
        | .error e => .error e
        | .ok ids3 =>
          match make_request parse listAfter with
          | .error e => .error e
          | .ok _ =>
            match make_request parse listFinal with
            | .error e => .error e
            | .ok _ => .ok (ids3.length == 3)

/-- The request `o` completed as a session creation with status 201 (through
`make_request`). -/
def created201 (parse : String → Except String JsonVal) (o : HttpOutcome) : Prop :=
  ∃ v, make_request parse o = Except.ok (201, v)

/-- `deleteCall`'s returned value on outcomes where it returns. -/
def deleteOk : HttpOutcome → Bool
  | .success _ _ => true
  | .httpError c _ => c == 204
  | .transportError _ => false

theorem createStep_cases (parse : String → Except String JsonVal)
    (o : HttpOutcome) (acc ids : List JsonVal)
    (h : createStep parse o acc = .ok ids) :
    (created201 parse o ∧ ids.length = acc.length + 1) ∨
    (¬ created201 parse o ∧ ids = acc) := by
  unfold createStep at h
  split at h
  next e heq => cases h
  next s session heq =>
    split at h
    next hs =>
      split at h
      next e h1 => cases h
      next idv h1 =>
        split at h
        next e h2 => cases h
        next idp h2 =>
          split at h
          next e h3 => cases h
          next u h3 =>
            injection h with hids
            subst hs
            exact Or.inl ⟨⟨session, heq⟩, by rw [← hids]; simp⟩
    next hs =>
      injection h with hids
      refine Or.inr ⟨?_, hids.symm⟩
      rintro ⟨v, hv⟩
      rw [heq] at hv
      injection hv with hp
      exact hs (congrArg Prod.fst hp)

/-- C7 counterexample.  The claim says the session-management tests pass
exactly under the spec's lifecycle criterion (N new entries appear in the
listing, deletes return 204, the final list returns to the prior count).
Here `test_session_api` returns `True` — all three creates returned 201 —
although every listing decodes to the same empty list (so the listing reports
0, not 3, new entries) and every delete failed with HTTP 500; and
`test_sessions` returns `True` although its delete returned status 200, not
204. -/
theorem C7_counterexample :
    test_session_api jsonLoadsOn (.success 200 "[]")
        (.success 201 "\x7b\x7d") (.success 201 "\x7b\x7d") (.success 201 "\x7b\x7d")
        (.success 200 "[]")
        (.httpError 500 "") (.httpError 500 "") (.httpError 500 "")
        (.success 200 "[]") = .ok true ∧
    jsonLoadsOn "[]" = .ok (.arr []) ∧
    test_sessions jsonLoadsOn (.success 201 "\x7b\x7d") (.success 200 "[]")
        (.success 200 "\x7b\x7d") (.success 200 "") = .ok true :=
  ⟨rfl, rfl, rfl⟩

/-- C7 amended: `test_sessions` passes exactly when the create returned
status 201 and the delete either opened successfully (any status) or raised
`HTTPError` with code 204; `test_session_api` passes exactly when all three
creates returned status 201.  Neither test compares listing counts before and
after, and the list/get statuses and delete failures are ignored. -/
theorem C7_amended :
    (∀ (parse : String → Except String JsonVal) (co lo go dout : HttpOutcome)
        (b : Bool), test_sessions parse co lo go dout = .ok b →
      (b = true ↔ (created201 parse co ∧ deleteOk dout = true))) ∧
    (∀ (parse : String → Except String JsonVal)
        (lb c1 c2 c3 la d1 d2 d3 lf : HttpOutcome) (b : Bool),
        test_session_api parse lb c1 c2 c3 la d1 d2 d3 lf = .ok b →
      (b = true ↔
        (created201 parse c1 ∧ created201 parse c2 ∧ created201 parse c3))) := by
  constructor
  · intro parse co lo go dout b h
    unfold test_sessions at h
    split at h
    next e heq => cases h
    next s session heq =>
      split at h
      next e h1 => cases h
      next u1 h1 =>
        split at h
        next hs =>
          injection h with hb
          have hncr : ¬ created201 parse co := by
            rintro ⟨v, hv⟩
            rw [heq] at hv
            injection hv with hp
            exact hs (congrArg Prod.fst hp)
          simp [← hb, hncr]
        next hs =>
          have hs201 : s = 201 := not_not.mp hs
          split at h
          next e h2 => cases h
          next u2 h2 =>
            split at h
            next e h3 => cases h
            next u3 h3 =>
              split at h
              next e h4 => cases h
              next u4 h4 =>
                have hcr : created201 parse co := ⟨session, by rw [heq, hs201]⟩
                cases dout with
                | success st bd =>
                  injection h with hb
                  simp [← hb, hcr, deleteOk]
                | httpError c bd =>
                  injection h with hb
                  simp only [deleteOk, ← hb]
                  simp [hcr]
                | transportError m => cases h
  · intro parse lb c1 c2 c3 la d1 d2 d3 lf b h
    unfold test_session_api at h
    split at h
    next e heq => cases h
    next u0 heq =>
      split at h
      next e hc1 => cases h
      next ids1 hc1 =>
        split at h
        next e hc2 => cases h
        next ids2 hc2 =>
          split at h
          next e hc3 => cases h
          next ids3 hc3 =>
            split at h
            next e hm1 => cases h
            next u1 hm1 =>
              split at h
              next e hm2 => cases h
              next u2 hm2 =>
                injection h with hb
                have e1 := createStep_cases parse c1 [] ids1 hc1
                have e2 := createStep_cases parse c2 ids1 ids2 hc2
                have e3 := createStep_cases parse c3 ids2 ids3 hc3
                rw [← hb, beq_iff_eq]
                rcases e1 with ⟨p1, l1⟩ | ⟨n1, q1⟩ <;>
                  rcases e2 with ⟨p2, l2⟩ | ⟨n2, q2⟩ <;>
                    rcases e3 with ⟨p3, l3⟩ | ⟨n3, q3⟩
                · simp only [List.length_nil] at l1
                  exact ⟨fun _ => ⟨p1, p2, p3⟩, fun _ => by omega⟩
                · have hq3 := congrArg List.length q3
                  simp only [List.length_nil] at l1
                  constructor
                  · intro hyp
                    exact absurd hyp (by omega)
                  · rintro ⟨h1, h2, h3⟩
                    exact absurd h3 n3
                · have hq2 := congrArg List.length q2
                  simp only [List.length_nil] at l1
                  constructor
                  · intro hyp
                    exact absurd hyp (by omega)
                  · rintro ⟨h1, h2, h3⟩
                    exact absurd h2 n2
                · have hq2 := congrArg List.length q2
                  have hq3 := congrArg List.length q3
                  simp only [List.length_nil] at l1
                  constructor
                  · intro hyp
                    exact absurd hyp (by omega)
                  · rintro ⟨h1, h2, h3⟩
                    exact absurd h2 n2
                · have hq1 := congrArg List.length q1
                  simp only [List.length_nil] at hq1
                  constructor
                  · intro hyp
                    exact absurd hyp (by omega)
                  · rintro ⟨h1, h2, h3⟩
                    exact absurd h1 n1
                · have hq1 := congrArg List.length q1
                  have hq3 := congrArg List.length q3
                  simp only [List.length_nil] at hq1
                  constructor
                  · intro hyp
                    exact absurd hyp (by omega)
                  · rintro ⟨h1, h2, h3⟩
                    exact absurd h1 n1
                · have hq1 := congrArg List.length q1
                  have hq2 := congrArg List.length q2
                  simp only [List.length_nil] at hq1
                  constructor
                  · intro hyp
                    exact absurd hyp (by omega)
                  · rintro ⟨h1, h2, h3⟩
                    exact absurd h1 n1
                · have hq1 := congrArg List.length q1
                  have hq2 := congrArg List.length q2
                  have hq3 := congrArg List.length q3
                  simp only [List.length_nil] at hq1
                  constructor
                  · intro hyp
                    exact absurd hyp (by omega)
                  · rintro ⟨h1, h2, h3⟩
                    exact absurd h1 n1

/-- Witness for C7 amended, instantiating both characterizations at concrete
outcomes: a 201 create with a 200 delete for `test_sessions`, and three 201
creates for `test_session_api`. -/
theorem C7_amended_witness :
    (true = true ↔
      (created201 jsonLoadsOn (.success 201 "\x7b\x7d") ∧
       deleteOk (.success 200 "") = true)) ∧
    (true = true ↔
      (created201 jsonLoadsOn (.success 201 "\x7b\x7d") ∧
       created201 jsonLoadsOn (.success 201 "\x7b\x7d") ∧
       created201 jsonLoadsOn (.success 201 "\x7b\x7d"))) :=
  ⟨C7_amended.1 jsonLoadsOn (.success 201 "\x7b\x7d") (.success 200 "[]")
      (.success 200 "\x7b\x7d") (.success 200 "") true rfl,
   C7_amended.2 jsonLoadsOn (.success 200 "[]") (.success 201 "\x7b\x7d")
      (.success 201 "\x7b\x7d") (.success 201 "\x7b\x7d") (.success 200 "[]")
      (.httpError 500 "") (.httpError 500 "") (.httpError 500 "")
      (.success 200 "[]") true rfl⟩

/-- Python `len(x)`: defined on strings, lists and dicts; raises `TypeError`
on numbers, booleans and `None`. -/
def pyLen : JsonVal → Except String Nat
  | .str s => .ok s.toList.length
  | .arr es => .ok es.length
  | .obj fs => .ok fs.length
  | _ => .error "TypeError: len"

/-- Mutable state of the SSE loop in `test_sse_streaming`
(`adk_demo/tests/test_agent.py` lines 114-115): `chunk_count = 0`,
`final_text = ""`. -/
structure SseState where
  chunkCount : Nat
  finalText : JsonVal

/-- Processing of one complete event segment by `test_sse_streaming`
(`adk_demo/tests/test_agent.py` lines 128-139):

```
if line.startswith('data: '):
    data = line[6:]
    if data == '[DONE]':
        print("Received [DONE]")
    else:
        event = json.loads(data)
        chunk_count += 1
        content = event.get('content', {})
        parts = content.get('parts', [])
        if parts:
            final_text = parts[0].get('text', '')
            print(f"Chunk {chunk_count}: {len(final_text)} chars")
```

The `[DONE]` sentinel only triggers a print — there is no `break`.  The
result pairs the state at exit with `some e` when an exception was raised
(`json.loads` failure or a dynamic error; note `chunk_count` has already been
incremented when an error occurs after `json.loads` succeeded). -/
def processLine (parse : String → Except String JsonVal) (st : SseState)
    (line : List Char) : SseState × Option String :=
  if startsList "data: ".toList line then
    let data := line.drop 6
    if data = "[DONE]".toList then (st, none)
    else
      match parse (String.mk data) with
      | .error e => (st, some e)
      | .ok event =>
        let st1 : SseState := ⟨st.chunkCount + 1, st.finalText⟩
        match pyGetD event "content" (.obj []) with
        | .error e => (st1, some e)
        | .ok content =>
          match pyGetD content "parts" (.arr []) with
          | .error e => (st1, some e)
          | .ok parts =>
            if pyTruthy parts then
              match pyIndex0 parts with
              | .error e => (st1, some e)
              | .ok p0 =>
                match pyGetD p0 "text" (.str "") with
                | .error e => (st1, some e)
                | .ok t =>
                  let st2 : SseState := ⟨st1.chunkCount, t⟩
                  match pyLen t with
                  | .error e => (st2, some e)
                  | .ok _ => (st2, none)
            else (st1, none)
  else (st, none)

/-- The buffer-splitting of `test_sse_streaming`
(`adk_demo/tests/test_agent.py` lines 126-127):

```
while '\n\n' in buffer:
    line, buffer = buffer.split('\n\n', 1)
```

`splitSegs buf = (segs, rem)` where `segs` are the complete
`"\n\n"`-delimited segments of `buf` in order (splitting at each first
occurrence, exactly as the `while` loop does) and `rem` is the remainder left
in `buffer`. -/
def splitSegs : List Char → List (List Char) × List Char
  | [] => ([], [])
  | '\n' :: '\n' :: rest =>
      let (segs, rem) := splitSegs rest
      ([] :: segs, rem)
  | c :: rest =>
      match splitSegs rest with
      | ([], rem) => ([], c :: rem)
      | (s :: ss, rem) => ((c :: s) :: ss, rem)

/-- Processing of the drained segments in order; an exception from
`processLine` aborts the whole read loop (the surrounding `try`'s
`except Exception` just prints, and the function falls through to the
summary with the counts it has). -/
def processSegs (parse : String → Except String JsonVal) :
    SseState → List (List Char) → SseState × Option String
  | st, [] => (st, none)
  | st, s :: rest =>
    match processLine parse st s with
    | (st1, some e) => (st1, some e)
    | (st1, none) => processSegs parse st1 rest

/-- The read loop of `test_sse_streaming` (`adk_demo/tests/test_agent.py`
lines 118-139): each `resp.read(256)` result is one element of `chunks`
(an empty string models end of stream: `if not chunk: break`); the chunk is
appended to `buffer`, every complete `"\n\n"`-terminated segment is processed
in order, and an exception aborts the loop keeping the current counts. -/
def sseLoop (parse : String → Except String JsonVal) :
    SseState → List Char → List String → SseState
  | st, _, [] => st
  | st, buffer, chunk :: rest =>
    if chunk = "" then st
    else
      match splitSegs (buffer ++ chunk.toList) with
      | (segs, buffer1) =>
        match processSegs parse st segs with
        | (st1, some _) => st1
        | (st1, none) => sseLoop parse st1 buffer1 rest

/-- `test_sse_streaming` (`adk_demo/tests/test_agent.py` lines 91-147) as a
function of the successive `resp.read(256)` results, returning the final
`(chunk_count, final_text)` state. -/
def test_sse_streaming (parse : String → Except String JsonVal)
    (chunks : List String) : SseState :=
  sseLoop parse ⟨0, .str ""⟩ [] chunks

/-- The streaming consumer of `send_with_image_streaming`
(`src/examples/adk_image_example.py` lines 104-112), as a function of the
lines produced by `response.iter_lines()`:

```
for line in response.iter_lines():
    if line:
        decoded = line.decode('utf-8')
        if decoded.startswith('data: '):
            data = decoded[6:]
            if data == '[DONE]':
                print("\n[完了]")
                break
            print(data)
```

Returns the printed data payloads in order and whether the `[DONE]` sentinel
was reached (`break`). -/
def send_with_image_streaming : List String → List String × Bool
  | [] => ([], false)
  | line :: rest =>
    if line = "" then send_with_image_streaming rest
    else if pyStartsWith "data: " line then
      if String.mk (line.toList.drop 6) = "[DONE]" then ([], true)
      else
        match send_with_image_streaming rest with
        | (out, d) => (String.mk (line.toList.drop 6) :: out, d)
    else send_with_image_streaming rest

/-- A line that triggers the `[DONE]` branch of the image-example loop. -/
def IsDoneLine (line : String) : Prop :=
  line ≠ "" ∧ pyStartsWith "data: " line = true ∧
    String.mk (line.toList.drop 6) = "[DONE]"

/-- The data payload a line contributes in the image-example loop (`none` for
empty lines, non-`data: ` lines and the sentinel). -/
def dataPayload (line : String) : Option String :=
  if line = "" then none
  else if pyStartsWith "data: " line then
    if String.mk (line.toList.drop 6) = "[DONE]" then none
    else some (String.mk (line.toList.drop 6))
  else none

/-- All data payloads of a line list, in order. -/
def dataPayloads (lines : List String) : List String :=
  lines.filterMap dataPayload

theorem send_noDone : ∀ (l : List String),
    (∀ line ∈ l, ¬ IsDoneLine line) →
    send_with_image_streaming l = (dataPayloads l, false)
  | [], _ => rfl
  | line :: rest, h => by
    have hl := h line (List.mem_cons_self line rest)
    have ih := send_noDone rest (fun x hx => h x (List.mem_cons_of_mem line hx))
    unfold send_with_image_streaming
    by_cases he : line = ""
    · have hpay : dataPayload line = none := by
        unfold dataPayload
        rw [if_pos he]
      rw [if_pos he, ih]
      simp [dataPayloads, hpay]
    · rw [if_neg he]
      by_cases hs : pyStartsWith "data: " line = true
      · rw [if_pos hs]
        have hd : ¬ String.mk (line.toList.drop 6) = "[DONE]" :=
          fun hc => hl ⟨he, hs, hc⟩
        have hpay : dataPayload line = some (String.mk (line.toList.drop 6)) := by
          unfold dataPayload
          rw [if_neg he, if_pos hs, if_neg hd]
        rw [if_neg hd, ih]
        simp [dataPayloads, hpay]
      · have hpay : dataPayload line = none := by
          unfold dataPayload
          rw [if_neg he, if_neg hs]
        rw [if_neg hs, ih]
        simp [dataPayloads, hpay]

theorem send_beforeDone : ∀ (l1 l2 : List String),
    (∀ line ∈ l1, ¬ IsDoneLine line) →
    send_with_image_streaming (l1 ++ "data: [DONE]" :: l2) =
      (dataPayloads l1, true)
  | [], l2, _ => rfl
  | line :: l1, l2, h => by
    have hl := h line (List.mem_cons_self line l1)
    have ih := send_beforeDone l1 l2 (fun x hx => h x (List.mem_cons_of_mem line hx))
    rw [List.cons_append]
    unfold send_with_image_streaming
    by_cases he : line = ""
    · have hpay : dataPayload line = none := by
        unfold dataPayload
        rw [if_pos he]
      rw [if_pos he, ih]
      simp [dataPayloads, hpay]
    · rw [if_neg he]
      by_cases hs : pyStartsWith "data: " line = true
      · rw [if_pos hs]
        have hd : ¬ String.mk (line.toList.drop 6) = "[DONE]" :=
          fun hc => hl ⟨he, hs, hc⟩
        have hpay : dataPayload line = some (String.mk (line.toList.drop 6)) := by
          unfold dataPayload
          rw [if_neg he, if_pos hs, if_neg hd]
        rw [if_neg hd, ih]
        simp [dataPayloads, hpay]
      · have hpay : dataPayload line = none := by
          unfold dataPayload
          rw [if_neg he, if_neg hs]
        rw [if_neg hs, ih]
        simp [dataPayloads, hpay]

/-- C5 counterexample.  The claim says every streaming consumer stops
consuming once `data: [DONE]` is observed.  `test_sse_streaming` has no
`break` on the sentinel: on a stream with one event before the sentinel and
one after it, it consumes both (`chunk_count = 2`), whereas the same stream
truncated at the sentinel yields `chunk_count = 1` — the second event was
consumed after the sentinel had been observed. -/
theorem C5_counterexample :
    (test_sse_streaming jsonLoadsOn
        ["data: \x7b\x7d\n\ndata: [DONE]\n\ndata: \x7b\x7d\n\n", ""]).chunkCount = 2 ∧
    (test_sse_streaming jsonLoadsOn
        ["data: \x7b\x7d\n\ndata: [DONE]\n\n", ""]).chunkCount = 1 :=
  ⟨rfl, rfl⟩

/-- C5 amended: the image-example streaming consumer
(`send_with_image_streaming`) yields each decoded data payload in order and
stops at the first `data: [DONE]` line, consuming nothing after it (and
yields all payloads with no sentinel flag when the stream closes without one);
the `test_sse_streaming` consumer instead only notes the sentinel and
continues consuming events until the stream closes, as witnessed by an event
placed after `[DONE]` still being counted. -/
theorem C5_amended :
    (∀ l2 : List String,
      send_with_image_streaming ("data: [DONE]" :: l2) = ([], true)) ∧
    (∀ l1 l2 : List String, (∀ line ∈ l1, ¬ IsDoneLine line) →
      send_with_image_streaming (l1 ++ "data: [DONE]" :: l2) =
        (dataPayloads l1, true)) ∧
    (∀ l : List String, (∀ line ∈ l, ¬ IsDoneLine line) →
      send_with_image_streaming l = (dataPayloads l, false)) ∧
    (test_sse_streaming jsonLoadsOn
        ["data: [DONE]\n\ndata: \x7b\x7d\n\n", ""]).chunkCount = 1 :=
  ⟨fun _ => rfl, send_beforeDone, send_noDone, rfl⟩

/-- Witness for C5 amended, discharging the no-sentinel-line hypotheses at
concrete line lists. -/
theorem C5_amended_witness :
    (send_with_image_streaming (["data: hello"] ++ "data: [DONE]" :: ["data: tail"]) =
      (dataPayloads ["data: hello"], true)) ∧
    (send_with_image_streaming ["data: alpha"] = (dataPayloads ["data: alpha"], false)) :=
  ⟨C5_amended.2.1 ["data: hello"] ["data: tail"] (by
      intro line hline
      rw [List.mem_singleton] at hline
      subst hline
      rintro ⟨h1, h2, h3⟩
      exact absurd h3 (by decide)),
   C5_amended.2.2.1 ["data: alpha"] (by
      intro line hline
      rw [List.mem_singleton] at hline
      subst hline
      rintro ⟨h1, h2, h3⟩
      exact absurd h3 (by decide))⟩
